import Mathlib

/-!
Verification development for the album-web-generator repository.

Shallow embedding of the color-theming engine
(`src/modules/enhanced_contrast.py`, `src/modules/html_generator.py`)
and of the provider-chain resolvers
(`src/modules/image_finder.py`, `src/modules/lyrics_finder.py`),
together with proofs settling the specification claims about them.
-/

set_option maxRecDepth 4000

namespace HTMLGenerator

/-- An RGB pixel with natural-number channels (source works on 8-bit values). -/
abbrev Pixel := ℕ × ℕ × ℕ

/-- Channel quantization from `_extract_dominant_color_from_image`:
`r = (r // 10) * 10` on each channel. -/
def quantize (p : Pixel) : Pixel :=
  ((p.1 / 10) * 10, (p.2.1 / 10) * 10, (p.2.2 / 10) * 10)

/-- Distinct colors in first-occurrence order, as `collections.Counter`
enumerates its keys (insertion order). -/
def distinctKeys (xs : List Pixel) : List Pixel :=
  xs.foldl (fun acc x => if x ∈ acc then acc else acc ++ [x]) []

/-- Stable descending insertion by count: an element goes before the first
entry whose count is at most its own, so earlier-inserted elements keep
priority on ties, matching `Counter.most_common`. -/
def insertByCount (x : Pixel × ℕ) : List (Pixel × ℕ) → List (Pixel × ℕ)
  | [] => [x]
  | y :: ys => if y.2 ≤ x.2 then x :: y :: ys else y :: insertByCount x ys

/-- Stable sort, descending by count. -/
def sortByCountDesc : List (Pixel × ℕ) → List (Pixel × ℕ)
  | [] => []
  | x :: xs => insertByCount x (sortByCountDesc xs)

/-- `Counter(grouped_colors).most_common(20)`: count each distinct quantized
color, order by frequency descending (stable), keep the first 20. -/
def mostCommon20 (xs : List Pixel) : List (Pixel × ℕ) :=
  (sortByCountDesc ((distinctKeys xs).map (fun c => (c, xs.count c)))).take 20

/-- Mean brightness of a color: `(r + g + b) / 3` (float division in the
source, exact rational here). -/
def brightness (c : Pixel) : ℚ :=
  ((c.1 : ℚ) + c.2.1 + c.2.2) / 3

/-- Saturation as computed in the source:
`(max - min) / max if max > 0 else 0`. -/
def saturation (c : Pixel) : ℚ :=
  let maxVal := max c.1 (max c.2.1 c.2.2)
  let minVal := min c.1 (min c.2.1 c.2.2)
  if 0 < maxVal then ((maxVal : ℚ) - minVal) / maxVal else 0

/-- The scan loop of `_extract_dominant_color_from_image`: return the first
color with `20 < brightness < 235` whose saturation exceeds 0.1 or whose
brightness is below 100; otherwise keep scanning. -/
def scanColors : List (Pixel × ℕ) → Option Pixel
  | [] => none
  | (c, _) :: rest =>
    if 20 < brightness c ∧ brightness c < 235 then
      if (0.1 : ℚ) < saturation c ∨ brightness c < 100 then some c
      else scanColors rest
    else scanColors rest

/-- `ImageStat.Stat(img).mean` truncated by `int(...)`: per-channel sum over
the downsampled pixels divided by the pixel count, floored (natural division
is exactly the floor of the nonnegative rational mean). -/
def channelMean (xs : List Pixel) : Pixel :=
  ((xs.map (·.1)).sum / xs.length,
   (xs.map (·.2.1)).sum / xs.length,
   (xs.map (·.2.2)).sum / xs.length)

/-- `_extract_dominant_color_from_image`, from the point where the image may
or may not have been decoded.  `none` input models the paths that end in
`return None` (unreadable URL / decode exception); a `some` input is the
list of downsampled RGB pixels.  The body quantizes, ranks by frequency,
scans the top 20, and falls back to the channel mean of the (unquantized)
downsampled pixels. -/
def extract_dominant_color : Option (List Pixel) → Option Pixel
  | none => none
  | some pixels =>
    let grouped := pixels.map quantize
    match scanColors (mostCommon20 grouped) with
    | some c => some c
    | none => some (channelMean pixels)

/-- Acceptance predicate exactly as claim C3 words it:
(brightness strictly between 20 and 235 AND saturation > 0.1) OR
brightness below 100 regardless of saturation. -/
def claimAccepts (c : Pixel) : Bool :=
  decide ((20 < brightness c ∧ brightness c < 235 ∧ (0.1 : ℚ) < saturation c)
    ∨ brightness c < 100)

/-- The scan as claim C3 words it: first ranked color satisfying
`claimAccepts`. -/
def claimScan (ranked : List (Pixel × ℕ)) : Option Pixel :=
  (ranked.find? (fun p => claimAccepts p.1)).map (·.1)

/-- Acceptance predicate actually implemented by the source scan:
brightness strictly between 20 and 235 AND (saturation > 0.1 OR
brightness < 100).  Colors of brightness ≤ 20 never qualify. -/
def codeAccepts (c : Pixel) : Bool :=
  decide ((20 < brightness c ∧ brightness c < 235)
    ∧ ((0.1 : ℚ) < saturation c ∨ brightness c < 100))

end HTMLGenerator

namespace ImageFinder

/-- The image payload a provider returns: a dict with `url` and `source`
(extra keys such as `size` do not matter to the chain logic). -/
structure Payload where
  url : String
  source : String
deriving DecidableEq

/-- A raw provider body (`_search_musicbrainz_album`-style network code):
it may raise (modelled as `Except.error`), find nothing (`ok none`), or
produce a payload. -/
abbrev RawProvider := String → String → Except String (Option Payload)

/-- The `try/except` wrapper each `_search_*` method puts around its body:
any raised error is logged and turned into `None`. -/
def runProvider (p : RawProvider) (artist album : String) : Option Payload :=
  match p artist album with
  | .error _ => none
  | .ok r => r

/-- Mutable state of an `ImageFinder`: the `self.cache` dict (newest entry
first; lookup finds the most recent binding) plus one invocation counter per
provider, the call-count instrumentation of the spec's test. -/
structure FinderState where
  cache : List (String × Option Payload)
  calls1 : ℕ
  calls2 : ℕ
  calls3 : ℕ
deriving DecidableEq

/-- `cache_key = f"album_{artist}_{album}"` from `find_album_image`. -/
def cacheKeyAlbum (artist album : String) : String :=
  "album_" ++ artist ++ "_" ++ album

/-- `ImageFinder.find_album_image`: consult the cache; on a miss try
MusicBrainz, then Last.fm, then Discogs, stopping at the first non-empty
result; store the outcome (even `None`) in the cache and return it. -/
def find_album_image (p1 p2 p3 : RawProvider) (s : FinderState)
    (artist album : String) : Option Payload × FinderState :=
  let key := cacheKeyAlbum artist album
  match s.cache.lookup key with
  | some cached => (cached, s)
  | none =>
    let s1 := { s with calls1 := s.calls1 + 1 }
    match runProvider p1 artist album with
    | some v => (some v, { s1 with cache := (key, some v) :: s1.cache })
    | none =>
      let s2 := { s1 with calls2 := s1.calls2 + 1 }
      match runProvider p2 artist album with
      | some v => (some v, { s2 with cache := (key, some v) :: s2.cache })
      | none =>
        let s3 := { s2 with calls3 := s2.calls3 + 1 }
        let r := runProvider p3 artist album
        (r, { s3 with cache := (key, r) :: s3.cache })

/-- Modelled from the spec: normalization of a query field for cache keying
("case-folded, accent-stripped").  The source applies no such normalization;
this definition exists only to state claim C7 against the code. -/
def stripAccent (c : Char) : Char :=
  if c = 'á' then 'a' else if c = 'é' then 'e' else if c = 'í' then 'i'
  else if c = 'ó' then 'o' else if c = 'ú' then 'u' else if c = 'ñ' then 'n'
  else if c = 'Á' then 'A' else if c = 'É' then 'E' else if c = 'Í' then 'I'
  else if c = 'Ó' then 'O' else if c = 'Ú' then 'U' else if c = 'Ñ' then 'N'
  else c

/-- Modelled from the spec: case-fold and accent-strip one field. -/
def normalizeField (s : String) : String :=
  String.mk (s.data.map (fun c => (stripAccent c).toLower))

/-- Modelled from the spec: the "normalized, case-folded, accent-stripped
concatenation of the query's non-empty fields". -/
def normalizeQuery (artist album : String) : String :=
  normalizeField artist ++ "_" ++ normalizeField album

end ImageFinder

namespace LyricsFinder

/-- The lyrics payload a provider returns (the dict built by
`_search_lyrics_ovh`: lyrics text plus a source label). -/
structure LyricsInfo where
  lyrics : String
  source : String
deriving DecidableEq

/-- A raw lyrics provider body; errors model raised exceptions. -/
abbrev RawProvider := String → String → Except String (Option LyricsInfo)

/-- The `try/except` wrapper in each `_search_*` method of `LyricsFinder`. -/
def runProvider (p : RawProvider) (artist title : String) : Option LyricsInfo :=
  match p artist title with
  | .error _ => none
  | .ok r => r

/-- Mutable state of a `LyricsFinder`: `self._cache` plus per-provider
invocation counters. -/
structure LyricsState where
  cache : List (String × Option LyricsInfo)
  calls1 : ℕ
  calls2 : ℕ
  calls3 : ℕ
deriving DecidableEq

/-- `cache_key = f"{artist}_{title}"` from `_search_lyrics`. -/
def cacheKeyLyrics (artist title : String) : String :=
  artist ++ "_" ++ title

/-- `LyricsFinder._search_lyrics`: cache check, then Genius, AZLyrics and
lyrics.ovh in order, first non-empty result wins; the outcome (even `None`)
is stored in the cache. -/
def search_lyrics (p1 p2 p3 : RawProvider) (s : LyricsState)
    (artist title : String) : Option LyricsInfo × LyricsState :=
  let key := cacheKeyLyrics artist title
  match s.cache.lookup key with
  | some cached => (cached, s)
  | none =>
    let s1 := { s with calls1 := s.calls1 + 1 }
    match runProvider p1 artist title with
    | some v => (some v, { s1 with cache := (key, some v) :: s1.cache })
    | none =>
      let s2 := { s1 with calls2 := s1.calls2 + 1 }
      match runProvider p2 artist title with
      | some v => (some v, { s2 with cache := (key, some v) :: s2.cache })
      | none =>
        let s3 := { s2 with calls3 := s2.calls3 + 1 }
        let r := runProvider p3 artist title
        (r, { s3 with cache := (key, r) :: s3.cache })

/-- One track dict as `find_lyrics` reads it: `track.get('title', '')` and
`track.get('artist', album_artist)` (absent artist falls back to the album
artist). -/
structure Track where
  title : String
  artist : Option String
deriving DecidableEq

/-- The value stored under a title in `lyrics_data`: either the found info
dict, or the explicit no-lyrics entry
`{'lyrics': None, ..., 'error': 'No se encontraron letras'}`. -/
inductive LyricsEntry
  | found (info : LyricsInfo)
  | noLyrics
deriving DecidableEq

/-- Python-dict assignment `lyrics_data[title] = v`: overwrite in place if
the key exists, otherwise append. -/
def dictInsert (k : String) (v : LyricsEntry) :
    List (String × LyricsEntry) → List (String × LyricsEntry)
  | [] => [(k, v)]
  | (k₀, v₀) :: rest =>
    if k₀ = k then (k, v) :: rest else (k₀, v₀) :: dictInsert k v rest

/-- The `for track in tracks` loop of `find_lyrics`: skip tracks whose title
is empty or the placeholder `'Pista Sin Título'` before any provider runs;
otherwise search and record either the found info or the no-lyrics entry. -/
def find_lyrics_loop (p1 p2 p3 : RawProvider) (artist : String) :
    List Track → LyricsState → List (String × LyricsEntry) →
    List (String × LyricsEntry) × LyricsState
  | [], s, acc => (acc, s)
  | t :: rest, s, acc =>
    if t.title = "" ∨ t.title = "Pista Sin Título" then
      find_lyrics_loop p1 p2 p3 artist rest s acc
    else
      match search_lyrics p1 p2 p3 s (t.artist.getD artist) t.title with
      | (some info, s₁) =>
        find_lyrics_loop p1 p2 p3 artist rest s₁
          (dictInsert t.title (.found info) acc)
      | (none, s₁) =>
        find_lyrics_loop p1 p2 p3 artist rest s₁
          (dictInsert t.title .noLyrics acc)

/-- `LyricsFinder.find_lyrics`. -/
def find_lyrics (p1 p2 p3 : RawProvider) (s : LyricsState) (artist : String)
    (tracks : List Track) : List (String × LyricsEntry) × LyricsState :=
  find_lyrics_loop p1 p2 p3 artist tracks s []

end LyricsFinder

namespace EnhancedContrast

/-- An RGB color with natural-number channels (8-bit values in the source). -/
abbrev RGB := ℕ × ℕ × ℕ

/-- The `to_linear` helper of `calculate_luminance`: sRGB channel
linearization, with real arithmetic standing for the source's floats. -/
noncomputable def to_linear (c : ℝ) : ℝ :=
  if c ≤ 0.03928 then c / 12.92 else ((c + 0.055) / 1.055) ^ (2.4 : ℝ)

/-- `calculate_luminance`: WCAG relative luminance of a color, channels
first normalized to 0–1 by `c / 255`. -/
noncomputable def calculate_luminance (rgb : RGB) : ℝ :=
  0.2126 * to_linear ((rgb.1 : ℝ) / 255)
    + 0.7152 * to_linear ((rgb.2.1 : ℝ) / 255)
    + 0.0722 * to_linear ((rgb.2.2 : ℝ) / 255)

/-- `calculate_contrast_ratio`: swap the two luminances so the lighter one
is on top, then return `(lighter + 0.05) / (darker + 0.05)`. -/
noncomputable def calculate_contrast_ratio (color1 color2 : RGB) : ℝ :=
  if calculate_luminance color1 < calculate_luminance color2 then
    (calculate_luminance color2 + 0.05) / (calculate_luminance color1 + 0.05)
  else
    (calculate_luminance color1 + 0.05) / (calculate_luminance color2 + 0.05)

/-- The white candidate. -/
def white : RGB := (255, 255, 255)

/-- The black candidate. -/
def black : RGB := (0, 0, 0)

/-- The light-gray candidate. -/
def light_gray : RGB := (240, 240, 240)

/-- The dark-gray candidate. -/
def dark_gray : RGB := (40, 40, 40)

/-- Python's `max(list, key=first)` over a nonempty list of
(contrast, color) pairs: fold keeping the current best unless a later
element is strictly greater. -/
noncomputable def maxByContrast (x : ℝ × RGB) : List (ℝ × RGB) → ℝ × RGB
  | [] => x
  | y :: ys => maxByContrast (if x.1 < y.1 then y else x) ys

/-- `get_optimal_text_color`: try white, black, light gray, dark gray in
that order, returning the first whose contrast against the background
reaches 4.5; if none does, return the candidate of maximum contrast. -/
noncomputable def get_optimal_text_color (background_color : RGB) : RGB :=
  let white_contrast := calculate_contrast_ratio background_color white
  let black_contrast := calculate_contrast_ratio background_color black
  let light_gray_contrast := calculate_contrast_ratio background_color light_gray
  let dark_gray_contrast := calculate_contrast_ratio background_color dark_gray
  if 4.5 ≤ white_contrast then white
  else if 4.5 ≤ black_contrast then black
  else if 4.5 ≤ light_gray_contrast then light_gray
  else if 4.5 ≤ dark_gray_contrast then dark_gray
  else (maxByContrast (white_contrast, white)
    [(black_contrast, black), (light_gray_contrast, light_gray),
     (dark_gray_contrast, dark_gray)]).2

/-- The candidate list in the claimed priority order. -/
def candidates : List RGB := [white, black, light_gray, dark_gray]

/-- The selection rule exactly as claims C1 states it: candidates tested
in priority order, the first reaching contrast 4.5 wins, else the
maximum-contrast candidate wins. -/
noncomputable def optimal_text_color_spec (bg : RGB) : RGB :=
  match candidates.find?
    (fun c => decide (4.5 ≤ calculate_contrast_ratio bg c)) with
  | some c => c
  | none =>
    (maxByContrast (calculate_contrast_ratio bg white, white)
      ((candidates.drop 1).map
        (fun c => (calculate_contrast_ratio bg c, c)))).2

theorem to_linear_nonneg (c : ℝ) (hc : 0 ≤ c) : 0 ≤ to_linear c := by
  unfold to_linear
  split
  · positivity
  · exact Real.rpow_nonneg (by norm_num [hc] ; linarith) _

theorem to_linear_le_one (c : ℝ) (hc0 : 0 ≤ c) (hc1 : c ≤ 1) :
    to_linear c ≤ 1 := by
  unfold to_linear
  split
  · rw [div_le_one (by norm_num)] ; linarith
  · have hb0 : (0 : ℝ) ≤ (c + 0.055) / 1.055 := by positivity
    have hb1 : (c + 0.055) / 1.055 ≤ 1 := by
      rw [div_le_one (by norm_num)] ; linarith
    exact Real.rpow_le_one hb0 hb1 (by norm_num)

theorem luminance_nonneg (rgb : RGB) : 0 ≤ calculate_luminance rgb := by
  unfold calculate_luminance
  have h1 := to_linear_nonneg ((rgb.1 : ℝ) / 255) (by positivity)
  have h2 := to_linear_nonneg ((rgb.2.1 : ℝ) / 255) (by positivity)
  have h3 := to_linear_nonneg ((rgb.2.2 : ℝ) / 255) (by positivity)
  nlinarith

theorem luminance_le_one (rgb : RGB) (h1 : rgb.1 ≤ 255) (h2 : rgb.2.1 ≤ 255)
    (h3 : rgb.2.2 ≤ 255) : calculate_luminance rgb ≤ 1 := by
  unfold calculate_luminance
  have c1 : ((rgb.1 : ℝ)) / 255 ≤ 1 := by
    rw [div_le_one (by norm_num)] ; exact_mod_cast h1
  have c2 : ((rgb.2.1 : ℝ)) / 255 ≤ 1 := by
    rw [div_le_one (by norm_num)] ; exact_mod_cast h2
  have c3 : ((rgb.2.2 : ℝ)) / 255 ≤ 1 := by
    rw [div_le_one (by norm_num)] ; exact_mod_cast h3
  have l1 := to_linear_le_one ((rgb.1 : ℝ) / 255) (by positivity) c1
  have l2 := to_linear_le_one ((rgb.2.1 : ℝ) / 255) (by positivity) c2
  have l3 := to_linear_le_one ((rgb.2.2 : ℝ) / 255) (by positivity) c3
  nlinarith

theorem luminance_white : calculate_luminance white = 1 := by
  unfold calculate_luminance white to_linear
  norm_num

theorem luminance_black : calculate_luminance black = 0 := by
  unfold calculate_luminance black to_linear
  norm_num

theorem contrast_white (bg : RGB) (h : calculate_luminance bg ≤ 1) :
    calculate_contrast_ratio bg white
      = 1.05 / (calculate_luminance bg + 0.05) := by
  unfold calculate_contrast_ratio
  rw [luminance_white]
  split_ifs with hlt
  · norm_num
  · have heq : calculate_luminance bg = 1 := le_antisymm h (not_lt.mp hlt)
    rw [heq] ; norm_num

theorem contrast_black (bg : RGB) (h : 0 ≤ calculate_luminance bg) :
    calculate_contrast_ratio bg black
      = (calculate_luminance bg + 0.05) / 0.05 := by
  unfold calculate_contrast_ratio
  rw [luminance_black]
  split_ifs with hlt
  · linarith
  · norm_num

/-- For every 8-bit background one of the first two candidates already
reaches the 4.5 threshold: white does, or white misses and black reaches
it.  Shared workhorse behind the claims about `get_optimal_text_color`. -/
theorem white_or_black_passes (bg : RGB) (h1 : bg.1 ≤ 255)
    (h2 : bg.2.1 ≤ 255) (h3 : bg.2.2 ≤ 255) :
    4.5 ≤ calculate_contrast_ratio bg white ∨
      (¬ 4.5 ≤ calculate_contrast_ratio bg white ∧
        4.5 ≤ calculate_contrast_ratio bg black) := by
  have hL0 := luminance_nonneg bg
  have hL1 := luminance_le_one bg h1 h2 h3
  by_cases hc : 4.5 ≤ calculate_contrast_ratio bg white
  · exact Or.inl hc
  · refine Or.inr ⟨hc, ?_⟩
    rw [contrast_white bg hL1] at hc
    rw [contrast_black bg hL0]
    push_neg at hc
    have hpos : (0 : ℝ) < calculate_luminance bg + 0.05 := by linarith
    rw [div_lt_iff₀ hpos] at hc
    rw [le_div_iff₀ (by norm_num)]
    linarith

/-- C10: for every 8-bit background, `get_optimal_text_color` returns white
or black, and the returned color's contrast ratio against the background is
at least 4.5; in particular the light-gray, dark-gray and maximum-ratio
fallback branches are never taken. -/
theorem claim_C10_text_color_white_or_black (bg : RGB) (h1 : bg.1 ≤ 255)
    (h2 : bg.2.1 ≤ 255) (h3 : bg.2.2 ≤ 255) :
    (get_optimal_text_color bg = white ∨ get_optimal_text_color bg = black) ∧
      4.5 ≤ calculate_contrast_ratio bg (get_optimal_text_color bg) := by
  rcases white_or_black_passes bg h1 h2 h3 with hw | ⟨hnw, hb⟩
  · have hbg : get_optimal_text_color bg = white := by
      simp only [get_optimal_text_color]
      rw [if_pos hw]
    rw [hbg]
    exact ⟨Or.inl rfl, hw⟩
  · have hbg : get_optimal_text_color bg = black := by
      simp only [get_optimal_text_color]
      rw [if_neg hnw, if_pos hb]
    rw [hbg]
    exact ⟨Or.inr rfl, hb⟩

/-- Witness for C10 at the concrete background (10, 20, 30). -/
theorem claim_C10_witness :
    ((10 : ℕ) ≤ 255 ∧ (20 : ℕ) ≤ 255 ∧ (30 : ℕ) ≤ 255) ∧
      ((get_optimal_text_color (10, 20, 30) = white ∨
          get_optimal_text_color (10, 20, 30) = black) ∧
        4.5 ≤ calculate_contrast_ratio (10, 20, 30)
          (get_optimal_text_color (10, 20, 30))) :=
  ⟨⟨by decide, by decide, by decide⟩,
    claim_C10_text_color_white_or_black (10, 20, 30)
      (by decide) (by decide) (by decide)⟩

/-- C1: for every 8-bit background (in particular the palette's derived
primary background), `get_optimal_text_color` implements exactly the claimed
selection rule — candidates white, black, light gray, dark gray tested in
that priority order, the first with contrast ratio ≥ 4.5 winning, else the
maximum-ratio candidate — and consequently the selected color reaches ratio
4.5 or is the maximum-ratio candidate. -/
theorem claim_C1_text_color_selection (bg : RGB) (h1 : bg.1 ≤ 255)
    (h2 : bg.2.1 ≤ 255) (h3 : bg.2.2 ≤ 255) :
    get_optimal_text_color bg = optimal_text_color_spec bg ∧
      (4.5 ≤ calculate_contrast_ratio bg (get_optimal_text_color bg) ∨
        get_optimal_text_color bg
          = (maxByContrast (calculate_contrast_ratio bg white, white)
              [(calculate_contrast_ratio bg black, black),
               (calculate_contrast_ratio bg light_gray, light_gray),
               (calculate_contrast_ratio bg dark_gray, dark_gray)]).2) := by
  rcases white_or_black_passes bg h1 h2 h3 with hw | ⟨hnw, hb⟩
  · have hbg : get_optimal_text_color bg = white := by
      simp only [get_optimal_text_color]
      rw [if_pos hw]
    have hfind : candidates.find?
        (fun c => decide (4.5 ≤ calculate_contrast_ratio bg c))
          = some white := by
      simp only [candidates]
      exact List.find?_cons_of_pos _ (by simpa using hw)
    have hspec : optimal_text_color_spec bg = white := by
      simp only [optimal_text_color_spec]
      rw [hfind]
    rw [hbg, hspec]
    exact ⟨rfl, Or.inl hw⟩
  · have hbg : get_optimal_text_color bg = black := by
      simp only [get_optimal_text_color]
      rw [if_neg hnw, if_pos hb]
    have hfind : candidates.find?
        (fun c => decide (4.5 ≤ calculate_contrast_ratio bg c))
          = some black := by
      simp only [candidates]
      rw [List.find?_cons_of_neg _ (by simpa using hnw)]
      exact List.find?_cons_of_pos _ (by simpa using hb)
    have hspec : optimal_text_color_spec bg = black := by
      simp only [optimal_text_color_spec]
      rw [hfind]
    rw [hbg, hspec]
    exact ⟨rfl, Or.inl hb⟩

/-- Witness for C1 at the concrete background (200, 30, 120). -/
theorem claim_C1_witness :
    ((200 : ℕ) ≤ 255 ∧ (30 : ℕ) ≤ 255 ∧ (120 : ℕ) ≤ 255) ∧
      (get_optimal_text_color (200, 30, 120)
          = optimal_text_color_spec (200, 30, 120) ∧
        (4.5 ≤ calculate_contrast_ratio (200, 30, 120)
            (get_optimal_text_color (200, 30, 120)) ∨
          get_optimal_text_color (200, 30, 120)
            = (maxByContrast
                (calculate_contrast_ratio (200, 30, 120) white, white)
                [(calculate_contrast_ratio (200, 30, 120) black, black),
                 (calculate_contrast_ratio (200, 30, 120) light_gray,
                   light_gray),
                 (calculate_contrast_ratio (200, 30, 120) dark_gray,
                   dark_gray)]).2)) :=
  ⟨⟨by decide, by decide, by decide⟩,
    claim_C1_text_color_selection (200, 30, 120)
      (by decide) (by decide) (by decide)⟩

end EnhancedContrast

namespace ImageFinder

/-- C2: resolving the same (artist, album) query twice performs external
provider calls at most once: the second call is answered from the cache
with the first call's result and leaves the state — including every
provider-invocation counter — untouched.  The theorem holds whatever the
providers return, so a negative outcome (`none`, all providers empty) is
cached and replayed exactly as a positive one. -/
theorem claim_C2_resolve_twice_at_most_once (p1 p2 p3 : RawProvider)
    (s : FinderState) (artist album : String) :
    find_album_image p1 p2 p3
        (find_album_image p1 p2 p3 s artist album).2 artist album
      = ((find_album_image p1 p2 p3 s artist album).1,
          (find_album_image p1 p2 p3 s artist album).2) := by
  cases hc : List.lookup (cacheKeyAlbum artist album) s.cache with
  | some cached => simp [find_album_image, hc]
  | none =>
    cases hr1 : runProvider p1 artist album with
    | some v => simp [find_album_image, hc, hr1]
    | none =>
      cases hr2 : runProvider p2 artist album with
      | some v => simp [find_album_image, hc, hr1, hr2]
      | none =>
        cases hr3 : runProvider p3 artist album with
        | some v => simp [find_album_image, hc, hr1, hr2, hr3]
        | none => simp [find_album_image, hc, hr1, hr2, hr3]

/-- C5: the chain tries its providers in the documented priority order
(MusicBrainz Cover Art Archive, then Last.fm, then Discogs) and stops at
the first non-empty payload: on a cache miss, if provider 1 returns empty
and provider 2 returns a payload, the result is that payload and provider 3
is never invoked (its counter is unchanged). -/
theorem claim_C5_chain_short_circuit (p1 p2 p3 : RawProvider)
    (s : FinderState) (artist album : String) (v : Payload)
    (hmiss : List.lookup (cacheKeyAlbum artist album) s.cache = none)
    (h1 : p1 artist album = Except.ok none)
    (h2 : p2 artist album = Except.ok (some v)) :
    (find_album_image p1 p2 p3 s artist album).1 = some v ∧
      (find_album_image p1 p2 p3 s artist album).2.calls3 = s.calls3 := by
  simp [find_album_image, hmiss, runProvider, h1, h2]

/-- Witness for C5: provider 1 empty, provider 2 returns
`{url: "X", source: "Y"}`, provider 3 would return a different payload but
is never asked. -/
theorem claim_C5_witness :
    (List.lookup (cacheKeyAlbum "a" "b")
        (FinderState.mk [] 0 0 0).cache = none ∧
      (fun (_ _ : String) =>
          (Except.ok none : Except String (Option Payload))) "a" "b"
        = Except.ok none ∧
      (fun (_ _ : String) =>
          (Except.ok (some (Payload.mk "X" "Y"))
            : Except String (Option Payload))) "a" "b"
        = Except.ok (some (Payload.mk "X" "Y"))) ∧
      ((find_album_image
          (fun _ _ => Except.ok none)
          (fun _ _ => Except.ok (some (Payload.mk "X" "Y")))
          (fun _ _ => Except.ok (some (Payload.mk "Z" "W")))
          (FinderState.mk [] 0 0 0) "a" "b").1
          = some (Payload.mk "X" "Y") ∧
        (find_album_image
          (fun _ _ => Except.ok none)
          (fun _ _ => Except.ok (some (Payload.mk "X" "Y")))
          (fun _ _ => Except.ok (some (Payload.mk "Z" "W")))
          (FinderState.mk [] 0 0 0) "a" "b").2.calls3
          = (FinderState.mk ([] : List (String × Option Payload)) 0 0 0).calls3) :=
  ⟨⟨rfl, rfl, rfl⟩,
    claim_C5_chain_short_circuit
      (fun _ _ => Except.ok none)
      (fun _ _ => Except.ok (some (Payload.mk "X" "Y")))
      (fun _ _ => Except.ok (some (Payload.mk "Z" "W")))
      (FinderState.mk [] 0 0 0) "a" "b" (Payload.mk "X" "Y")
      rfl rfl rfl⟩

/-- C6: a provider that raises a transient error never aborts the chain.
On a cache miss: if provider 1 raises and provider 2 yields a payload, that
payload is the result; and if every provider raises or returns empty, the
resolver returns the Absent outcome `none` to the caller (no exception
escapes — the model is total) and caches it. -/
theorem claim_C6_provider_error_never_aborts (p1 p2 p3 : RawProvider)
    (s : FinderState) (artist album : String)
    (hmiss : List.lookup (cacheKeyAlbum artist album) s.cache = none) :
    (∀ e v, p1 artist album = Except.error e →
        p2 artist album = Except.ok (some v) →
        (find_album_image p1 p2 p3 s artist album).1 = some v) ∧
      ((p1 artist album = Except.ok none ∨
          ∃ e, p1 artist album = Except.error e) →
        (p2 artist album = Except.ok none ∨
          ∃ e, p2 artist album = Except.error e) →
        (p3 artist album = Except.ok none ∨
          ∃ e, p3 artist album = Except.error e) →
        (find_album_image p1 p2 p3 s artist album).1 = none ∧
          List.lookup (cacheKeyAlbum artist album)
            (find_album_image p1 p2 p3 s artist album).2.cache
            = some none) := by
  constructor
  · intro e v h1 h2
    simp [find_album_image, hmiss, runProvider, h1, h2]
  · intro h1 h2 h3
    have r1 : runProvider p1 artist album = none := by
      rcases h1 with h | ⟨e, h⟩ <;> simp [runProvider, h]
    have r2 : runProvider p2 artist album = none := by
      rcases h2 with h | ⟨e, h⟩ <;> simp [runProvider, h]
    have r3 : runProvider p3 artist album = none := by
      rcases h3 with h | ⟨e, h⟩ <;> simp [runProvider, h]
    simp [find_album_image, hmiss, r1, r2, r3]

/-- Witness for C6: provider 1 raises, providers 2 and 3 are empty; the
chain survives the error and yields the cached Absent outcome. -/
theorem claim_C6_witness :
    List.lookup (cacheKeyAlbum "a" "b")
        (FinderState.mk [] 0 0 0).cache = none ∧
      (find_album_image
          (fun _ _ => Except.error "timeout")
          (fun _ _ => Except.ok none)
          (fun _ _ => Except.ok none)
          (FinderState.mk [] 0 0 0) "a" "b").1 = none ∧
        List.lookup (cacheKeyAlbum "a" "b")
          (find_album_image
            (fun _ _ => Except.error "timeout")
            (fun _ _ => Except.ok none)
            (fun _ _ => Except.ok none)
            (FinderState.mk [] 0 0 0) "a" "b").2.cache = some none :=
  ⟨rfl,
    (claim_C6_provider_error_never_aborts
        (fun _ _ => Except.error "timeout")
        (fun _ _ => Except.ok none)
        (fun _ _ => Except.ok none)
        (FinderState.mk [] 0 0 0) "a" "b" rfl).2
      (Or.inr ⟨"timeout", rfl⟩) (Or.inl rfl) (Or.inl rfl)⟩

end ImageFinder

namespace ImageFinder

/-- Counterexample to C7: the queries ("Abba", "x") and ("ABBA", "x") have
identical fields after case-folding/accent-stripping, yet the resolver
derives different cache keys — and therefore does not share a cache entry:
resolving the second query after the first invokes provider 1 again. -/
theorem claim_C7_counterexample :
    normalizeQuery "Abba" "x" = normalizeQuery "ABBA" "x" ∧
      cacheKeyAlbum "Abba" "x" ≠ cacheKeyAlbum "ABBA" "x" ∧
      (find_album_image (fun _ _ => Except.ok none)
          (fun _ _ => Except.ok none) (fun _ _ => Except.ok none)
          (find_album_image (fun _ _ => Except.ok none)
            (fun _ _ => Except.ok none) (fun _ _ => Except.ok none)
            (FinderState.mk [] 0 0 0) "Abba" "x").2
          "ABBA" "x").2.calls1 = 2 :=
  ⟨by decide, by decide, rfl⟩

end ImageFinder

namespace LyricsFinder

/-- C7 as amended: the cache key is the raw, unnormalized concatenation of
the query's fields (here for the lyrics resolver, `f"{artist}_{title}"`),
so only literally identical queries share a cache entry: repeating the very
same raw query is answered from the cache with the first result and no new
provider call. -/
theorem claim_C7_amended_raw_key (p1 p2 p3 : RawProvider)
    (s : LyricsState) (artist title : String) :
    cacheKeyLyrics artist title = artist ++ "_" ++ title ∧
      search_lyrics p1 p2 p3
          (search_lyrics p1 p2 p3 s artist title).2 artist title
        = ((search_lyrics p1 p2 p3 s artist title).1,
            (search_lyrics p1 p2 p3 s artist title).2) := by
  refine ⟨rfl, ?_⟩
  cases hc : List.lookup (cacheKeyLyrics artist title) s.cache with
  | some cached => simp [search_lyrics, hc]
  | none =>
    cases hr1 : runProvider p1 artist title with
    | some v => simp [search_lyrics, hc, hr1]
    | none =>
      cases hr2 : runProvider p2 artist title with
      | some v => simp [search_lyrics, hc, hr1, hr2]
      | none =>
        cases hr3 : runProvider p3 artist title with
        | some v => simp [search_lyrics, hc, hr1, hr2, hr3]
        | none => simp [search_lyrics, hc, hr1, hr2, hr3]

/-- Counterexample to C8: a request with a missing artist (empty album
artist, no per-track artist) is not rejected — provider 1 is invoked
anyway, and the outcome is the ordinary no-lyrics entry, not a distinct
invalid-query condition. -/
theorem claim_C8_counterexample :
    (find_lyrics (fun _ _ => Except.ok none) (fun _ _ => Except.ok none)
          (fun _ _ => Except.ok none) (LyricsState.mk [] 0 0 0) ""
          [Track.mk "Song" none]).2.calls1 = 1 ∧
      (find_lyrics (fun _ _ => Except.ok none) (fun _ _ => Except.ok none)
          (fun _ _ => Except.ok none) (LyricsState.mk [] 0 0 0) ""
          [Track.mk "Song" none]).1
        = [("Song", LyricsEntry.noLyrics)] :=
  ⟨rfl, rfl⟩

/-- C8 as amended: only the track title is validated.  A track whose title
is empty or the placeholder `'Pista Sin Título'` is skipped before any
provider is invoked — the state (cache and all call counters) is untouched
and the result contains no entry for it, an outcome distinguishable from
the explicit no-lyrics entry recorded when providers find nothing.  A
missing artist is not validated: the album artist is substituted and the
providers are invoked. -/
theorem claim_C8_amended_title_validation (p1 p2 p3 : RawProvider)
    (s : LyricsState) (artist : String) (t : Track)
    (hinvalid : t.title = "" ∨ t.title = "Pista Sin Título") :
    find_lyrics p1 p2 p3 s artist [t] = ([], s) ∧
      ([] : List (String × LyricsEntry))
        ≠ [(t.title, LyricsEntry.noLyrics)] := by
  refine ⟨?_, by simp⟩
  simp [find_lyrics, find_lyrics_loop, hinvalid]

/-- Witness for the amended C8 at the concrete placeholder-titled track. -/
theorem claim_C8_amended_witness :
    ((Track.mk "" none).title = "" ∨
        (Track.mk "" none).title = "Pista Sin Título") ∧
      (find_lyrics (fun _ _ => Except.ok none) (fun _ _ => Except.ok none)
            (fun _ _ => Except.ok none) (LyricsState.mk [] 0 0 0) "A"
            [Track.mk "" none]
          = ([], LyricsState.mk [] 0 0 0) ∧
        ([] : List (String × LyricsEntry))
          ≠ [((Track.mk "" none).title, LyricsEntry.noLyrics)]) :=
  ⟨Or.inl rfl,
    claim_C8_amended_title_validation (fun _ _ => Except.ok none)
      (fun _ _ => Except.ok none) (fun _ _ => Except.ok none)
      (LyricsState.mk [] 0 0 0) "A" (Track.mk "" none) (Or.inl rfl)⟩

end LyricsFinder

namespace HTMLGenerator

/-- The scan loop accepts exactly the first ranked color satisfying
`codeAccepts` — brightness strictly between 20 and 235 AND
(saturation > 0.1 OR brightness < 100). -/
theorem scanColors_eq_find (l : List (Pixel × ℕ)) :
    scanColors l = (l.find? (fun p => codeAccepts p.1)).map (·.1) := by
  induction l with
  | nil => rfl
  | cons x rest ih =>
    obtain ⟨c, n⟩ := x
    by_cases h1 : 20 < brightness c ∧ brightness c < 235
    · by_cases h2 : (0.1 : ℚ) < saturation c ∨ brightness c < 100
      · simp [scanColors, h1, h2, codeAccepts, List.find?_cons]
      · simp [scanColors, h1, h2, codeAccepts, List.find?_cons, ih]
    · simp [scanColors, h1, codeAccepts, List.find?_cons, ih]

/-- Counterexample to C3: for the quantized population
[(0,0,0), (0,0,0), (50,100,150)], the first color satisfying the claim's
acceptance predicate is (0,0,0) (brightness 0 < 100, "regardless of
saturation"), yet the code returns (50,100,150): colors of brightness ≤ 20
are filtered out by the outer brightness window before the brightness<100
alternative is ever consulted. -/
theorem claim_C3_counterexample :
    claimScan (mostCommon20
        ([(0,0,0), (0,0,0), (50,100,150)].map quantize))
      = some (0, 0, 0) ∧
      extract_dominant_color (some [(0,0,0), (0,0,0), (50,100,150)])
        = some (50, 100, 150) ∧
      ((50, 100, 150) : Pixel) ≠ (0, 0, 0) := by
  refine ⟨?_, ?_, by decide⟩
  · norm_num [claimScan, claimAccepts, mostCommon20, distinctKeys,
      sortByCountDesc, insertByCount, brightness, saturation, quantize,
      List.count, List.foldl, List.find?]
  · norm_num [extract_dominant_color, mostCommon20, distinctKeys,
      sortByCountDesc, insertByCount, scanColors, brightness, saturation,
      quantize, channelMean, List.count, List.foldl]

/-- C3 as amended: the scan accepts exactly the first of the 20 most
frequent quantized colors whose brightness lies strictly between 20 and 235
AND whose saturation exceeds 0.1 or whose brightness is below 100; when no
ranked color qualifies the result is the arithmetic channel mean of the
downsampled image. -/
theorem claim_C3_amended_first_accepted (pixels : List Pixel) :
    extract_dominant_color (some pixels)
      = some ((((mostCommon20 (pixels.map quantize)).find?
            (fun p => codeAccepts p.1)).map (·.1)).getD
          (channelMean pixels)) := by
  simp only [extract_dominant_color]
  rw [← scanColors_eq_find]
  cases h : scanColors (mostCommon20 (pixels.map quantize)) <;> simp [h]

/-- Counterexample to C4: when decoding fails (or the image path does not
exist) `_extract_dominant_color_from_image` returns `None` — not a fixed
neutral gray — so the extraction entry point is not total in the claimed
sense. -/
theorem claim_C4_counterexample : extract_dominant_color none = none := rfl

/-- C4 as amended: for every successfully decoded image the extractor
returns a color (falling back to the image mean when no ranked color
qualifies), but on decode failure it returns `None`, and the caller
(`_generate_album_colors`) switches to its hash-based fallback palette. -/
theorem claim_C4_amended_total_on_decoded :
    (∀ pixels : List Pixel,
        (extract_dominant_color (some pixels)).isSome = true) ∧
      extract_dominant_color none = none := by
  refine ⟨?_, rfl⟩
  intro pixels
  simp only [extract_dominant_color]
  cases h : scanColors (mostCommon20 (pixels.map quantize)) <;> simp [h]

/-- Repeatedly prepending a color already in the accumulator leaves the
first-occurrence fold of `distinctKeys` unchanged. -/
theorem foldl_dedup_const (n : ℕ) (x : Pixel) (acc : List Pixel)
    (hx : x ∈ acc) :
    List.foldl (fun acc x => if x ∈ acc then acc else acc ++ [x]) acc
        (List.replicate n x) = acc := by
  induction n with
  | zero => rfl
  | succ m ih => simp [List.replicate, hx, ih]

/-- A constant population has a single distinct color. -/
theorem distinctKeys_replicate (n : ℕ) (x : Pixel) (hn : 0 < n) :
    distinctKeys (List.replicate n x) = [x] := by
  cases n with
  | zero => exact absurd hn (by norm_num)
  | succ m =>
    unfold distinctKeys
    rw [List.replicate_succ, List.foldl_cons]
    simp only [List.not_mem_nil, if_neg, List.nil_append]
    exact foldl_dedup_const m x [x] (by simp)

/-- Quantization fixes pure black, pixel by pixel. -/
theorem map_quantize_replicate (n : ℕ) :
    (List.replicate n ((0,0,0) : Pixel)).map quantize
      = List.replicate n ((0,0,0) : Pixel) := by
  rw [List.map_replicate]
  rfl

/-- The frequency ranking of a constant population is that single color
with the full count. -/
theorem mostCommon20_replicate (n : ℕ) (x : Pixel) (hn : 0 < n) :
    mostCommon20 (List.replicate n x) = [(x, n)] := by
  unfold mostCommon20
  rw [distinctKeys_replicate n x hn]
  rw [List.map_cons, List.map_nil, List.count_replicate_self]
  simp [sortByCountDesc, insertByCount]

/-- The channel mean of an all-black population is black. -/
theorem channelMean_replicate_zero (n : ℕ) :
    channelMean (List.replicate n ((0,0,0) : Pixel)) = (0, 0, 0) := by
  unfold channelMean
  simp

/-- Pure black (brightness 0) fails the 20 < brightness window, so the scan
rejects it whatever its count. -/
theorem scanColors_black_none (n : ℕ) :
    scanColors [(((0,0,0) : Pixel), n)] = none := by
  norm_num [scanColors, brightness]

/-- C9: for a synthetic all-black image of any positive pixel count (in
particular the 150×150 = 22500-pixel downsample), the extractor returns
pure black — the image-mean fallback, not a gray placeholder and not the
`None` of the decode-failure path — and that color's brightness is below
100. -/
theorem claim_C9_all_black_image (n : ℕ) (hn : 0 < n) :
    extract_dominant_color (some (List.replicate n ((0,0,0) : Pixel)))
        = some (0, 0, 0) ∧
      brightness (0, 0, 0) < 100 := by
  constructor
  · simp only [extract_dominant_color]
    rw [map_quantize_replicate n,
      mostCommon20_replicate n ((0,0,0) : Pixel) hn,
      scanColors_black_none n, channelMean_replicate_zero n]
  · norm_num [brightness]

/-- Witness for C9 at the 150×150 downsample size. -/
theorem claim_C9_witness :
    0 < 22500 ∧
      (extract_dominant_color
          (some (List.replicate 22500 ((0,0,0) : Pixel)))
          = some (0, 0, 0) ∧
        brightness (0, 0, 0) < 100) :=
  ⟨by norm_num, claim_C9_all_black_image 22500 (by norm_num)⟩

end HTMLGenerator
